import Mathlib

/-!
Shallow embedding of the SkyInsight analytics pipeline
(src/data_processor.py and src/api_integration.py) and proofs about the
specified properties.

Modelling conventions, used throughout:
* a pandas DataFrame is a `Frame`: a list of rows plus Boolean column-presence
  flags for the optional columns;
* numeric cell values are `Option ℚ`, with `none` playing the role of NaN
  (pandas `to_numeric(errors=..coerce..)` has already been applied, so an
  unparseable raw value is `none`);
* dates are day numbers (days since 1970-01-01); `pd.to_datetime` applied to a
  raw cell is modelled by `RawDate` (`invalid` raises, `missing` is NaT,
  `valid d` is a timestamp);
* Python exceptions are modelled with `Except String`; a `try/except` wrapper
  is a `match` that maps `.error` to the documented fallback value;
* float arithmetic is modelled with exact rationals; `round`/format rounding is
  round-half-to-even on the rational value (Python rounds the decimal
  expansion of the binary float, which agrees except on ties that are not
  exactly representable);
* `sort_values` is modelled as a stable sort (pandas uses an unstable
  quicksort, so orders of tied keys may differ; no claim depends on tie order);
* a standard deviation field that no claim touches is stored as the sample
  variance (its square) so that every definition stays inside ℚ.
-/

namespace SkyInsight

unseal Rat.add Rat.mul Rat.inv Rat.sub Rat.ofScientific

/-! ### Numeric helpers -/

/-- Round-half-to-even of a rational to an integer (Python and numpy rounding). -/
def roundHalfEven (q : ℚ) : ℤ :=
  if q - ⌊q⌋ < 1/2 then ⌊q⌋
  else if 1/2 < q - ⌊q⌋ then ⌊q⌋ + 1
  else if ⌊q⌋ % 2 = 0 then ⌊q⌋ else ⌊q⌋ + 1

/-- pandas `.round(1)`. -/
def round1 (q : ℚ) : ℚ := (roundHalfEven (q * 10) : ℚ) / 10

/-- pandas `.round(0)`. -/
def round0 (q : ℚ) : ℚ := (roundHalfEven q : ℚ)

/-- pandas `.round(2)`. -/
def round2 (q : ℚ) : ℚ := (roundHalfEven (q * 100) : ℚ) / 100

/-- pandas `.round(3)`. -/
def round3 (q : ℚ) : ℚ := (roundHalfEven (q * 1000) : ℚ) / 1000

/-- Python `int(...)` on a float: truncation toward zero. -/
def intTrunc (q : ℚ) : ℤ := if 0 ≤ q then ⌊q⌋ else ⌈q⌉

/-- Sum of a numeric column, NaN entries skipped; the empty/all-NaN sum is 0
(pandas `.sum()`). -/
def sumOpt (l : List (Option ℚ)) : ℚ := (l.filterMap id).sum

/-- Mean of a numeric column, NaN entries skipped; NaN if no value is present
(pandas `.mean()`). -/
def meanOpt (l : List (Option ℚ)) : Option ℚ :=
  let vs := l.filterMap id
  if vs.isEmpty then none else some (vs.sum / (vs.length : ℚ))

/-- Sample variance (ddof = 1) of a numeric column, NaN entries skipped; NaN
when fewer than two values are present.  This is the square of pandas
`.std()`; it is stored instead of the standard deviation to stay in ℚ. -/
def varOpt (l : List (Option ℚ)) : Option ℚ :=
  let vs := l.filterMap id
  if vs.length < 2 then none
  else
    let m := vs.sum / (vs.length : ℚ)
    some ((vs.map (fun x => (x - m) ^ 2)).sum / ((vs.length : ℚ) - 1))

/-- Minimum of a column, skipping NaN (pandas `.min()`); NaN when empty. -/
def minOpt (l : List (Option ℚ)) : Option ℚ :=
  match l.filterMap id with
  | [] => none
  | v :: vs => some (vs.foldl min v)

/-- Maximum of a column, skipping NaN (pandas `.max()`); NaN when empty. -/
def maxOpt (l : List (Option ℚ)) : Option ℚ :=
  match l.filterMap id with
  | [] => none
  | v :: vs => some (vs.foldl max v)

/-- All cells present (used where numpy raises on any NaN). -/
def allSomeList (l : List (Option ℚ)) : Option (List ℚ) := l.mapM id

/-! ### Stable insertion sort -/

/-- Insert `x` in front of the first element `y` with `lt x y`; equal keys keep
their original relative order, so the resulting sort is stable. -/
def insertLt (lt : α → α → Bool) (x : α) : List α → List α
  | [] => [x]
  | y :: ys => if lt x y then x :: y :: ys else y :: insertLt lt x ys

/-- Stable insertion sort with strict-order predicate `lt`. -/
def insertionSortBy (lt : α → α → Bool) : List α → List α
  | [] => []
  | x :: xs => insertLt lt x (insertionSortBy lt xs)

/-- Distinct keys of a groupby, in ascending order (pandas groupby sorts its
keys). -/
def sortedKeys [DecidableEq α] (lt : α → α → Bool) (l : List α) : List α :=
  insertionSortBy lt l.dedup

/-- Linear-interpolation quantile of an ascending list (pandas default
`.quantile(p)` interpolation). -/
def quantileLin (p : ℚ) (sorted : List ℚ) : ℚ :=
  let n := sorted.length
  if n = 0 then 0
  else
    let h : ℚ := p * ((n : ℚ) - 1)
    let lo : ℤ := ⌊h⌋
    let a := sorted.getD lo.toNat 0
    let b := sorted.getD (lo.toNat + 1) a
    a + (h - (lo : ℚ)) * (b - a)

/-- Lexicographic comparison of character lists by code point. -/
def charListLt : List Char → List Char → Bool
  | [], [] => false
  | [], _ :: _ => true
  | _ :: _, [] => false
  | a :: as, b :: bs =>
    if a.val < b.val then true else if b.val < a.val then false else charListLt as bs

/-- Lexicographic string comparison by code point (the order pandas uses on
string keys), over the character lists so that it evaluates inside the
kernel. -/
def strLt (a b : String) : Bool := charListLt a.data b.data

/-- First index attaining the maximum (pandas `idxmax` keeps the first
occurrence); `none` on an empty column. -/
def argmaxBy (f : α → ℚ) : List α → Option α
  | [] => none
  | x :: xs =>
    match argmaxBy f xs with
    | none => some x
    | some y => if f y > f x then some y else some x

/-- First index attaining the minimum (pandas `idxmin`). -/
def argminBy (f : α → ℚ) : List α → Option α
  | [] => none
  | x :: xs =>
    match argminBy f xs with
    | none => some x
    | some y => if f y < f x then some y else some x

/-! ### Calendar -/

/-- Gregorian calendar date (year, month, day) of a day number counted from
1970-01-01 (the civil-from-days algorithm). -/
def civilFromDays (z0 : Int) : Int × Int × Int :=
  let z := z0 + 719468
  let era : Int := (if 0 ≤ z then z else z - 146096) / 146097
  let doe : Int := z - era * 146097
  let yoe : Int := (doe - doe / 1460 + doe / 36524 - doe / 146096) / 365
  let y : Int := yoe + era * 400
  let doy : Int := doe - (365 * yoe + yoe / 4 - yoe / 100)
  let mp : Int := (5 * doy + 2) / 153
  let d : Int := doy - (153 * mp + 2) / 5 + 1
  let m : Int := mp + (if mp < 10 then 3 else -9)
  (y + (if m ≤ 2 then 1 else 0), m, d)

/-- Calendar month (1..12) of a day number (`Series.dt.month`). -/
def monthOfDay (d : Int) : Int := (civilFromDays d).2.1

/-- Weekday with Monday = 0 .. Sunday = 6 (`Series.dt.weekday`);
1970-01-01 was a Thursday. -/
def weekdayOf (d : Int) : Int := (d + 3).emod 7

/-- Canonical weekday order used by the demand analysis. -/
def dayOrder : List String :=
  ["Monday", "Tuesday", "Wednesday", "Thursday", "Friday", "Saturday", "Sunday"]

/-- `Series.dt.day_name()`. -/
def dayNameOf (d : Int) : String := dayOrder.getD (weekdayOf d).toNat ""

/-- Saturday or Sunday (`weekday.isin([5, 6])`). -/
def isWeekendOf (d : Int) : Bool := weekdayOf d == 5 || weekdayOf d == 6

/-- Zero-padded two-digit rendering for date formatting. -/
def pad2 (n : Int) : String := if n < 10 then "0" ++ toString n else toString n

/-- `strftime(%Y-%m-%d)` of a day number. -/
def fmtDate (d : Int) : String :=
  let c := civilFromDays d
  toString c.1 ++ "-" ++ pad2 c.2.1 ++ "-" ++ pad2 c.2.2

/-- Python `f-string` formatting with `{x:+.1f}`: explicit sign and one
decimal, rounding half to even. -/
def fmtSigned1 (q : ℚ) : String :=
  let r := roundHalfEven (q * 10)
  let sign := if r < 0 ∨ (r = 0 ∧ q < 0) then "-" else "+"
  let a := r.natAbs
  sign ++ toString (a / 10) ++ "." ++ toString (a % 10)

/-! ### The flight-record table -/

/-- The date cell of a raw record as seen by `pd.to_datetime`:
an unparseable value raises, a missing value becomes NaT, a parseable value
becomes a timestamp (day number). -/
inductive RawDate where
  | invalid : RawDate
  | missing : RawDate
  | valid : Int → RawDate
deriving Repr, DecidableEq

def RawDate.isInvalid : RawDate → Bool
  | .invalid => true
  | _ => false

def RawDate.isValid : RawDate → Bool
  | .valid _ => true
  | _ => false

/-- Day number of a valid date; 0 otherwise (only used where every date is
valid). -/
def RawDate.day : RawDate → Int
  | .valid d => d
  | _ => 0

/-- One row of the flight-record table.  `origin` and `destination` are always
present (string columns); the numeric columns carry `Option ℚ` cells.  The
derived columns (`loadFactor`, `dayOfWeek`, `month`, `isWeekend`) are filled in
by cleaning; on a raw frame they hold the defaults given by `mkRaw`. -/
structure Row where
  date : RawDate
  price : Option ℚ
  bookings : Option ℚ
  capacity : Option ℚ
  loadFactor : Option ℚ
  origin : String
  destination : String
  dayOfWeek : String
  month : Int
  isWeekend : Bool
deriving Repr, DecidableEq

/-- A raw row, before any derived column exists. -/
def mkRaw (d : RawDate) (p b c : Option ℚ) (o dst : String) : Row :=
  { date := d, price := p, bookings := b, capacity := c, loadFactor := none,
    origin := o, destination := dst, dayOfWeek := "", month := 0,
    isWeekend := false }

/-- A DataFrame: rows plus column-presence flags.  `hasDerived` records
whether the cleaning-derived columns (`day_of_week`, `month`, `is_weekend`)
exist; the ISO `week` column is also added by cleaning but no analysis in any
claim reads it, so it is not modelled. -/
structure Frame where
  hasDate : Bool
  hasPrice : Bool
  hasBookings : Bool
  hasCapacity : Bool
  hasLoadFactor : Bool
  hasDerived : Bool
  rows : List Row
deriving Repr, DecidableEq

/-- Every date cell of the frame is a parsed timestamp. -/
def allDatesValid (t : Frame) : Bool := t.rows.all (fun r => r.date.isValid)

/-! ### RecordCleaner (`MarketAnalyzer._clean_data`) -/

/-- Per-row `load_factor = bookings / capacity` followed by `.clip(0, 1)`,
with pandas division semantics: NaN operands give NaN, `x / 0` gives
`±inf` for `x ≠ 0` (clipped to 1 or 0) and NaN for `x = 0`. -/
def loadFactorOf (b c : Option ℚ) : Option ℚ :=
  match b, c with
  | some b, some c =>
    if c = 0 then
      if b = 0 then none
      else if 0 < b then some 1 else some 0
    else some (max 0 (min 1 (b / c)))
  | _, _ => none

/-- Fill in the derived time columns of a cleaned row. -/
def addDerived (r : Row) : Row :=
  match r.date with
  | .valid d =>
    { r with dayOfWeek := dayNameOf d, month := monthOfDay d,
             isWeekend := isWeekendOf d }
  | _ => r

/-- The successful body of `_clean_data`: `dropna` on date and price, the IQR
outlier filter clamped to the [50, 2000] band (an empty price column gives NaN
quantile bounds whose comparisons are all False, dropping every row), the
`load_factor` column when both of its inputs exist, and the derived time
columns. -/
def cleanBuild (t : Frame) : Frame :=
  let rows1 := t.rows.filter (fun r => r.date.isValid && r.price.isSome)
  let prices := rows1.filterMap (fun r => r.price)
  let rows2 :=
    if prices.isEmpty then ([] : List Row)
    else
      let sp := insertionSortBy (fun a b => decide (a < b)) prices
      let q1 := quantileLin (1/4) sp
      let q3 := quantileLin (3/4) sp
      let iqr := q3 - q1
      let lo := max (q1 - 3/2 * iqr) 50
      let hi := min (q3 + 3/2 * iqr) 2000
      rows1.filter (fun r =>
        match r.price with
        | some p => decide (lo ≤ p) && decide (p ≤ hi)
        | none => false)
  let rows3 :=
    if t.hasBookings && t.hasCapacity then
      rows2.map (fun r => { r with loadFactor := loadFactorOf r.bookings r.capacity })
    else rows2
  { t with rows := rows3.map addDerived,
           hasLoadFactor := t.hasLoadFactor || (t.hasBookings && t.hasCapacity),
           hasDerived := true }

/-- The body of `_clean_data` without its `try/except`: date coercion raises
on a missing date column or an unparseable date cell, the `dropna` raises on a
missing price column, and otherwise the cleaning succeeds.  An `.error`
result models a raised exception. -/
def cleanCore (t : Frame) : Except String Frame :=
  if t.hasDate = false then .error "KeyError: date"
  else if t.rows.any (fun r => r.date.isInvalid) then .error "to_datetime: unparseable date"
  else if t.hasPrice = false then .error "KeyError: price"
  else .ok (cleanBuild t)

/-- `_clean_data`: the `try/except` wrapper returns the original input on any
internal failure. -/
def clean (t : Frame) : Frame :=
  match cleanCore t with
  | .ok c => c
  | .error _ => t

/-! ### Demand patterns (`MarketAnalyzer._analyze_demand_patterns`) -/

/-- The `peak_periods` dictionary: either a peak day is identified from the
daily booking sums, or the fixed heuristic ranges alone are reported. -/
structure PeakInfo where
  peakDay : Option String
  highDemand : String
  lowDemand : String
deriving Repr, DecidableEq

/-- The fixed heuristic ranges returned when no peak can be localised. -/
def defaultPeakInfo : PeakInfo :=
  { peakDay := none, highDemand := "Friday-Sunday", lowDemand := "Tuesday-Wednesday" }

/-- `_analyze_peak_periods`: an hour column never exists in this schema, so
the hourly branch is unreachable; the daily branch reports the weekday of the
date with maximal booking sum.  The inner `try/except` makes this total: any
internal failure (missing bookings column, non-datetime dates, empty data)
falls back to the heuristic ranges. -/
def analyzePeakPeriods (t : Frame) : PeakInfo :=
  if t.hasDate && t.hasBookings && allDatesValid t && !t.rows.isEmpty then
    let days := sortedKeys (fun a b => decide (a < b)) (t.rows.map (fun r => r.date.day))
    let sums := days.map (fun d =>
      (d, sumOpt ((t.rows.filter (fun r => r.date.day == d)).map (fun r => r.bookings))))
    match argmaxBy (fun p => p.2) sums with
    | some p =>
      { peakDay := some (dayNameOf p.1), highDemand := "Friday-Sunday",
        lowDemand := "Tuesday-Wednesday" }
    | none => defaultPeakInfo
  else defaultPeakInfo

/-- The dictionary produced by `_analyze_demand_patterns`.  The weekend
aggregate cells are `Option ℚ` because a skipna mean can still be NaN. -/
structure DemandPatterns where
  dailyLabels : List String
  dailyBookings : List ℚ
  dailyAvgPrices : List ℚ
  monthlyLabels : List String
  monthlyBookings : List ℚ
  monthlyAvgPrices : List (Option ℚ)
  weekdayBookings : Option ℚ
  weekendBookings : Option ℚ
  weekdayPrice : Option ℚ
  weekendPrice : Option ℚ
  peakPeriods : PeakInfo
deriving Repr, DecidableEq

/-- The distinct months present in the data, ascending (the groupby keys of
the monthly demand aggregation). -/
def distinctMonths (t : Frame) : List Int :=
  sortedKeys (fun a b => decide (a < b)) (t.rows.map (fun r => r.month))

/-- The successful body of `_analyze_demand_patterns`: the weekday series is
reindexed onto the canonical 7-day order with absent days filled with 0, while
the monthly series keeps exactly the groupby keys, one entry per month present
in the data. -/
def demandPatternsBuild (t : Frame) : DemandPatterns :=
  let dayRows := fun nm => t.rows.filter (fun r => r.dayOfWeek == nm)
  let months := distinctMonths t
  let monthRows := fun m => t.rows.filter (fun r => r.month == m)
  let wkday := t.rows.filter (fun r => !r.isWeekend)
  let wkend := t.rows.filter (fun r => r.isWeekend)
  let groupsCount := (if wkday.isEmpty then 0 else 1) + (if wkend.isEmpty then 0 else 1)
  { dailyLabels := dayOrder
    dailyBookings := dayOrder.map (fun nm => sumOpt ((dayRows nm).map (fun r => r.bookings)))
    dailyAvgPrices := dayOrder.map (fun nm =>
      round0 ((meanOpt ((dayRows nm).map (fun r => r.price))).getD 0))
    monthlyLabels := months.map (fun m => "Month " ++ toString m)
    monthlyBookings := months.map (fun m => sumOpt ((monthRows m).map (fun r => r.bookings)))
    monthlyAvgPrices := months.map (fun m =>
      (meanOpt ((monthRows m).map (fun r => r.price))).map round0)
    weekdayBookings :=
      if groupsCount = 0 then some 0 else meanOpt (wkday.map (fun r => r.bookings))
    weekendBookings :=
      if 1 < groupsCount then meanOpt (wkend.map (fun r => r.bookings)) else some 0
    weekdayPrice :=
      if groupsCount = 0 then some 0 else meanOpt (wkday.map (fun r => r.price))
    weekendPrice :=
      if 1 < groupsCount then meanOpt (wkend.map (fun r => r.price)) else some 0
    peakPeriods := analyzePeakPeriods t }

/-- `_analyze_demand_patterns` without its `try/except`: raises on a missing
column, and raises an IndexError when rows exist but no weekday row does (the
weekday extraction indexes `iloc[0]` of an empty selection). -/
def demandPatternsCore (t : Frame) : Except String DemandPatterns :=
  if !(t.hasDerived && t.hasBookings && t.hasPrice) then .error "KeyError"
  else if !t.hasLoadFactor then .error "KeyError: load_factor"
  else if !t.rows.isEmpty && (t.rows.filter (fun r => !r.isWeekend)).isEmpty then
    .error "IndexError: single-positional indexer is out-of-bounds"
  else .ok (demandPatternsBuild t)

/-- The static dictionary of the `except` branch of
`_analyze_demand_patterns`. -/
def defaultDemandPatterns : DemandPatterns :=
  { dailyLabels := dayOrder
    dailyBookings := [850, 720, 680, 790, 1200, 1450, 1300]
    dailyAvgPrices := [420, 410, 400, 430, 480, 520, 500]
    monthlyLabels := ["Month 1", "Month 2", "Month 3"]
    monthlyBookings := [2500, 2200, 2800]
    monthlyAvgPrices := [some 450, some 420, some 470]
    weekdayBookings := some 750
    weekendBookings := some 1200
    weekdayPrice := some 430
    weekendPrice := some 480
    peakPeriods := defaultPeakInfo }

/-- `_analyze_demand_patterns` with its `try/except`. -/
def demandPatternsOf (t : Frame) : DemandPatterns :=
  match demandPatternsCore t with
  | .ok d => d
  | .error _ => defaultDemandPatterns

/-! ### Seasonal trends (`MarketAnalyzer._analyze_seasonal_trends`) -/

/-- The Southern-Hemisphere season of a calendar month; months outside 1..12
map to NaN and are dropped by the season groupby. -/
def seasonOfMonth (m : Int) : Option String :=
  if m = 12 ∨ m = 1 ∨ m = 2 then some "Summer"
  else if m = 3 ∨ m = 4 ∨ m = 5 then some "Autumn"
  else if m = 6 ∨ m = 7 ∨ m = 8 then some "Winter"
  else if m = 9 ∨ m = 10 ∨ m = 11 then some "Spring"
  else none

/-- The dictionary produced by `_analyze_seasonal_trends`.  The
`price_variation` standard deviation is stored as the sample variance
(`priceVariationSq`) to stay in ℚ; no claim reads it. -/
structure SeasonalTrends where
  monthlyLabels : List String
  monthlyBookings : List ℚ
  monthlyPrices : List (Option ℚ)
  peakSeason : String
  lowSeason : String
  priceVariationSq : Option ℚ
deriving Repr, DecidableEq

/-- Month names used as the labels of the full-year series. -/
def monthNames : List String :=
  ["Jan", "Feb", "Mar", "Apr", "May", "Jun", "Jul", "Aug", "Sep", "Oct", "Nov", "Dec"]

/-- The full-year month range 1..12 (`pd.DataFrame(month=range(1, 13))`). -/
def monthRange : List Int := [1, 2, 3, 4, 5, 6, 7, 8, 9, 10, 11, 12]

/-- The successful body of `_analyze_seasonal_trends`: a monthly groupby, a
season-level groupby of the per-month aggregates, and a merge onto the full
1..12 month range with bookings filled with 0 and prices filled with the mean
of the merged price column. -/
def seasonalTrendsBuild (t : Frame) : SeasonalTrends :=
  let months := distinctMonths t
  let monthRows := fun m => t.rows.filter (fun r => r.month == m)
  let mBook := fun m => sumOpt ((monthRows m).map (fun r => r.bookings))
  let mPrice := fun m => meanOpt ((monthRows m).map (fun r => r.price))
  let presentSeasons := ["Autumn", "Spring", "Summer", "Winter"].filter
    (fun s => months.any (fun m => seasonOfMonth m == some s))
  let seasonMonths := fun s => months.filter (fun m => seasonOfMonth m == some s)
  let sBookMean := fun s =>
    let l := (seasonMonths s).map mBook
    if l.isEmpty then 0 else l.sum / (l.length : ℚ)
  let base : List (Option ℚ) :=
    monthRange.map (fun m => if m ∈ months then mPrice m else none)
  let fillMean := meanOpt base
  let filled := base.map (fun o => o.orElse (fun _ => fillMean))
  { monthlyLabels := monthNames
    monthlyBookings :=
      monthRange.map (fun m => sumOpt ((monthRows m).map (fun r => r.bookings)))
    monthlyPrices := filled.map (fun o => o.map round0)
    peakSeason := (argmaxBy sBookMean presentSeasons).getD "Summer"
    lowSeason := (argminBy sBookMean presentSeasons).getD "Winter"
    priceVariationSq := varOpt filled }

/-- `_analyze_seasonal_trends` without its `try/except`: the aggregations
raise on a missing `bookings`, `price`, `load_factor` or derived column. -/
def seasonalTrendsCore (t : Frame) : Except String SeasonalTrends :=
  if !(t.hasDerived && t.hasBookings && t.hasPrice && t.hasLoadFactor) then .error "KeyError"
  else .ok (seasonalTrendsBuild t)

/-- The static dictionary of the `except` branch of
`_analyze_seasonal_trends` (std 45.2 stored as its square). -/
def defaultSeasonalTrends : SeasonalTrends :=
  { monthlyLabels := monthNames
    monthlyBookings := [2550, 2340, 2460, 2250, 2100, 1950, 2700, 2550, 2250, 2400, 2640, 2850]
    monthlyPrices := [some 520, some 480, some 460, some 440, some 420, some 400,
                      some 450, some 460, some 440, some 460, some 500, some 540]
    peakSeason := "Summer"
    lowSeason := "Winter"
    priceVariationSq := some (45.2 ^ 2) }

/-- `_analyze_seasonal_trends` with its `try/except`. -/
def seasonalTrendsOf (t : Frame) : SeasonalTrends :=
  match seasonalTrendsCore t with
  | .ok s => s
  | .error _ => defaultSeasonalTrends

/-! ### Popular routes (`MarketAnalyzer._analyze_popular_routes`) -/

/-- A per-route aggregate row of the route groupby. -/
structure RouteGroup where
  route : String
  bookings : ℚ
  priceMean : Option ℚ
  lfMean : Option ℚ
deriving Repr, DecidableEq

/-- The dictionary produced by `_analyze_popular_routes`. -/
structure PopularRoutes where
  labels : List String
  bookings : List ℚ
  avgPrices : List (Option ℚ)
  marketShare : List ℚ
  totalRoutes : ℕ
  topRoute : String
  avgLoadFactor : Option ℚ
deriving Repr, DecidableEq

/-- Route keys in the sorted groupby order: ascending on origin, then
destination. -/
def routeKeys (t : Frame) : List (String × String) :=
  sortedKeys
    (fun a b => strLt a.1 b.1 || (a.1 == b.1 && strLt a.2 b.2))
    (t.rows.map (fun r => (r.origin, r.destination)))

/-- The per-route aggregates, in groupby key order. -/
def routeGroups (t : Frame) : List RouteGroup :=
  (routeKeys t).map (fun k =>
    let rs := t.rows.filter (fun r => r.origin == k.1 && r.destination == k.2)
    { route := k.1 ++ "-" ++ k.2
      bookings := sumOpt (rs.map (fun r => r.bookings))
      priceMean := meanOpt (rs.map (fun r => r.price))
      lfMean := meanOpt (rs.map (fun r => r.loadFactor)) })

/-- Total bookings over all routes (the denominator of the market share). -/
def routesTotalBookings (t : Frame) : ℚ := ((routeGroups t).map (fun g => g.bookings)).sum

/-- The successful body of `_analyze_popular_routes`: sort descending by
bookings, compute each market share as `bookings / total × 100` rounded to one
decimal, and keep the top 10.  When the total is 0 pandas produces NaN/inf
shares; no claim covers that case and the share is modelled by ℚ division
(which yields 0). -/
def popularRoutesBuild (t : Frame) : PopularRoutes :=
  let groups := routeGroups t
  let sorted := insertionSortBy (fun a b => decide (b.bookings < a.bookings)) groups
  let total := routesTotalBookings t
  { labels := (sorted.take 10).map (fun g => g.route)
    bookings := (sorted.take 10).map (fun g => g.bookings)
    avgPrices := (sorted.take 10).map (fun g => g.priceMean.map round0)
    marketShare := (sorted.take 10).map (fun g => round1 (g.bookings / total * 100))
    totalRoutes := groups.length
    topRoute := ((sorted.head?).map (fun g => g.route)).getD "N/A"
    avgLoadFactor := meanOpt (groups.map (fun g => g.lfMean)) }

/-- `_analyze_popular_routes` without its `try/except`: the aggregation dict
raises on a missing `bookings`, `price` or `load_factor` column. -/
def popularRoutesCore (t : Frame) : Except String PopularRoutes :=
  if !(t.hasBookings && t.hasPrice && t.hasLoadFactor) then .error "KeyError"
  else .ok (popularRoutesBuild t)

/-- The static dictionary of the `except` branch of
`_analyze_popular_routes`. -/
def defaultPopularRoutes : PopularRoutes :=
  { labels := ["SYD-MEL", "MEL-SYD", "SYD-BNE", "BNE-SYD", "SYD-PER", "PER-SYD"]
    bookings := [2850, 2640, 2280, 2160, 2040, 1950]
    avgPrices := [some 320, some 325, some 380, some 375, some 650, some 645]
    marketShare := [18.5, 17.2, 14.8, 14.0, 13.2, 12.7]
    totalRoutes := 24
    topRoute := "SYD-MEL"
    avgLoadFactor := some 0.78 }

/-- `_analyze_popular_routes` with its `try/except`. -/
def popularRoutesOf (t : Frame) : PopularRoutes :=
  match popularRoutesCore t with
  | .ok p => p
  | .error _ => defaultPopularRoutes

/-! ### Trend slope (`MarketAnalyzer._calculate_trend`) -/

/-- Least-squares slope of `vs` against the index positions 0..n-1
(`np.polyfit(x, y, 1)[0]`). -/
def slopeOf (vs : List ℚ) : ℚ :=
  let n : ℚ := (vs.length : ℚ)
  let xs : List ℚ := (List.range vs.length).map (fun i => (i : ℚ))
  let sx := xs.sum
  let sy := vs.sum
  let sxy := ((xs.zip vs).map (fun p => p.1 * p.2)).sum
  let sxx := (xs.map (fun x => x * x)).sum
  let d := n * sxx - sx * sx
  if d = 0 then 0 else (n * sxy - sx * sy) / d

/-- `_calculate_trend`: 0 for fewer than two points; `np.polyfit` raises a
LinAlgError on NaN input, which the inner `try/except` converts to 0. -/
def calculateTrend (ys : List (Option ℚ)) : ℚ :=
  if ys.length < 2 then 0
  else
    match allSomeList ys with
    | some vs => slopeOf vs
    | none => 0

/-! ### Statistics (`MarketAnalyzer._calculate_comprehensive_statistics`) -/

/-- Stable sort of the rows by the date column (`sort_values(date)`). -/
def sortByDay (rows : List Row) : List Row :=
  insertionSortBy (fun a b => decide (a.date.day < b.date.day)) rows

/-- Price cells of the chronologically first half (`head(len // 2)` of the
sorted rows). -/
def firstHalfPrices (rows : List Row) : List (Option ℚ) :=
  ((sortByDay rows).take (rows.length / 2)).map (fun r => r.price)

/-- Price cells of the chronologically last half (`tail(len // 2)` of the
sorted rows). -/
def secondHalfPrices (rows : List Row) : List (Option ℚ) :=
  ((sortByDay rows).drop (rows.length - rows.length / 2)).map (fun r => r.price)

/-- The price-change statistic: split the records chronologically in half and
compare the mean price of the second half with the first, formatted
`{x:+.1f}%`.  Fewer than 2 records give "0.0%".  A NaN half-mean renders as
"+nan%" and a zero first-half mean renders as Python float division renders
inf/nan; neither case is reachable from a cleaned table with at least two
rows. -/
def priceChangeOf (rows : List Row) : String :=
  if rows.length ≤ 1 then "0.0%"
  else if (firstHalfPrices rows).isEmpty || (secondHalfPrices rows).isEmpty then "0.0%"
  else
    match meanOpt (firstHalfPrices rows), meanOpt (secondHalfPrices rows) with
    | some fm, some lm =>
      if fm = 0 then
        if 0 < lm then "+inf%" else if lm < 0 then "-inf%" else "+nan%"
      else fmtSigned1 ((lm - fm) / fm * 100) ++ "%"
    | _, _ => "+nan%"

/-- `_calculate_market_health`: its own `try/except` makes it total.  The
coefficient-of-variation thresholds `std/mean < 0.2` and `< 0.3` are expressed
exactly in ℚ by comparing the variance with the squared threshold times the
squared mean (equivalent for positive mean; a negative mean makes the CV
negative, below every threshold; a zero mean gives inf/NaN, failing both). -/
def marketHealthOf (t : Frame) : String :=
  if !t.hasPrice then "Good"
  else
    let prices := t.rows.map (fun r => r.price)
    let cvScore : ℕ :=
      match meanOpt prices, varOpt prices with
      | some m, some v =>
        if m < 0 then 2
        else if m = 0 then 0
        else if v * 100 < 4 * m * m then 2
        else if v * 100 < 9 * m * m then 1
        else 0
      | _, _ => 0
    let lfScore : ℕ :=
      if t.hasLoadFactor then
        match meanOpt (t.rows.map (fun r => r.loadFactor)) with
        | some l => if (0.8 : ℚ) < l then 2 else if (0.7 : ℚ) < l then 1 else 0
        | none => 0
      else 0
    let routeScore : ℕ :=
      let n := (routeKeys t).length
      if 10 < n then 2 else if 5 < n then 1 else 0
    let score := cvScore + lfScore + routeScore
    if 5 ≤ score then "Excellent"
    else if 3 ≤ score then "Good"
    else if 1 ≤ score then "Fair"
    else "Poor"

/-- The statistics dictionary.  `priceVarSq` stores the square of the
`price_std` field (see the module conventions); `avgLoadFactor` is NaN-able. -/
structure Stats where
  totalFlights : ℕ
  avgPrice : ℤ
  medianPrice : ℤ
  priceVarSq : Option ℚ
  minPrice : ℤ
  maxPrice : ℤ
  totalBookings : ℤ
  avgBookings : ℤ
  totalCapacity : ℤ
  avgLoadFactor : Option ℚ
  uniqueRoutes : ℕ
  dateStart : String
  dateEnd : String
  dateDays : ℤ
  priceChange : String
  marketHealth : String
deriving Repr, DecidableEq

/-- pandas median of a sorted nonempty list: middle element, or the mean of
the two middle elements for even length. -/
def medianOf (vs : List ℚ) : ℚ :=
  let sorted := insertionSortBy (fun a b => decide (a < b)) vs
  let n := sorted.length
  if n = 0 then 0
  else if n % 2 = 1 then sorted.getD (n / 2) 0
  else (sorted.getD (n / 2 - 1) 0 + sorted.getD (n / 2) 0) / 2

/-- The successful body of `_calculate_comprehensive_statistics`. -/
def statsBuild (t : Frame) : Stats :=
  let prices := t.rows.filterMap (fun r => r.price)
  let n := (prices.length : ℚ)
  let days := (t.rows.map (fun r => r.date.day))
  let dmin := days.foldl min (days.headD 0)
  let dmax := days.foldl max (days.headD 0)
  { totalFlights := t.rows.length
    avgPrice := intTrunc (prices.sum / n)
    medianPrice := intTrunc (medianOf prices)
    priceVarSq := varOpt (t.rows.map (fun r => r.price))
    minPrice := intTrunc ((minOpt (t.rows.map (fun r => r.price))).getD 0)
    maxPrice := intTrunc ((maxOpt (t.rows.map (fun r => r.price))).getD 0)
    totalBookings :=
      if t.hasBookings then intTrunc (sumOpt (t.rows.map (fun r => r.bookings))) else 0
    avgBookings :=
      if t.hasBookings then
        intTrunc ((meanOpt (t.rows.map (fun r => r.bookings))).getD 0)
      else 0
    totalCapacity :=
      if t.hasCapacity then intTrunc (sumOpt (t.rows.map (fun r => r.capacity))) else 0
    avgLoadFactor :=
      if t.hasLoadFactor then (meanOpt (t.rows.map (fun r => r.loadFactor))).map round3
      else some 0
    uniqueRoutes := (routeKeys t).length
    dateStart := fmtDate dmin
    dateEnd := fmtDate dmax
    dateDays := dmax - dmin
    priceChange := priceChangeOf t.rows
    marketHealth := marketHealthOf t }

/-- `_calculate_comprehensive_statistics` without its `try/except`: raises on
a missing price column, on `int(...)` of a NaN mean (empty or all-NaN price or
bookings column), on a missing date column, and on `strftime` of a
non-timestamp date minimum. -/
def statsCore (t : Frame) : Except String Stats :=
  if !t.hasPrice then .error "KeyError: price"
  else if (t.rows.filterMap (fun r => r.price)).isEmpty then .error "int of NaN"
  else if t.hasBookings && (t.rows.filterMap (fun r => r.bookings)).isEmpty then
    .error "int of NaN bookings"
  else if !t.hasDate then .error "KeyError: date"
  else if !allDatesValid t || t.rows.isEmpty then .error "strftime on non-timestamp"
  else .ok (statsBuild t)

/-- The static dictionary of the `except` branch of
`_calculate_comprehensive_statistics` (std 95.5 stored as its square). -/
def defaultStatsFn (today : Int) : Stats :=
  { totalFlights := 0
    avgPrice := 485
    medianPrice := 470
    priceVarSq := some (95.5 ^ 2)
    minPrice := 280
    maxPrice := 850
    totalBookings := 15000
    avgBookings := 125
    totalCapacity := 19500
    avgLoadFactor := some 0.769
    uniqueRoutes := 24
    dateStart := fmtDate (today - 30)
    dateEnd := fmtDate today
    dateDays := 30
    priceChange := "+12.3%"
    marketHealth := "Good" }

/-- `_calculate_comprehensive_statistics` with its `try/except`; `today` is
`datetime.now()` as a day number (used only by the fallback dictionary). -/
def statisticsOf (t : Frame) (today : Int) : Stats :=
  match statsCore t with
  | .ok s => s
  | .error _ => defaultStatsFn today

/-! ### Forecasting (`MarketAnalyzer._generate_forecasts`) -/

/-- The forecasting dictionary. -/
structure Forecast where
  nextWeek : ℤ
  confidence : String
  trendStr : String
  demandNextWeek : String
  seasonalFactor : ℚ
deriving Repr, DecidableEq

/-- The demand forecast: "High" for the peak months {12, 1, 6, 7}, else
"Medium". -/
def demandForecastOf (month : Int) : String :=
  if month = 12 ∨ month = 1 ∨ month = 6 ∨ month = 7 then "High" else "Medium"

/-- The textual direction of a slope (shared by the forecast). -/
def trendLabelOf (s : ℚ) : String :=
  if 0 < s then "increasing" else if s < 0 then "decreasing" else "stable"

/-- The fixed month-indexed seasonal factor table;
`seasonal_factors.get(current_month, 1.0)`. -/
def seasonalFactorOf (m : Int) : ℚ :=
  if m = 1 then 1.2 else if m = 2 then 1.1 else if m = 3 then 1
  else if m = 4 then 0.9 else if m = 5 then 0.9 else if m = 6 then 0.8
  else if m = 7 then 0.9 else if m = 8 then 0.9 else if m = 9 then 0.9
  else if m = 10 then 1 else if m = 11 then 1.1 else if m = 12 then 1.3
  else 1

/-- The price column in chronological order. -/
def pricesByDay (t : Frame) : List (Option ℚ) :=
  (sortByDay t.rows).map (fun r => r.price)

/-- The last 7 price cells in chronological order (`tail(7)`). -/
def lastSevenPrices (t : Frame) : List (Option ℚ) :=
  let l := pricesByDay t
  l.drop (l.length - 7)

/-- `_generate_forecasts` without its `try/except`.  With 7 or fewer records
the local variable `trend` is never assigned but is referenced when building
the result, so the body raises a NameError; `int(...)` of a NaN forecast also
raises.  On success the forecast is the mean of the last 7 record prices,
plus slope × 7, times the seasonal factor of the current month. -/
def forecastsCore (t : Frame) (month : Int) : Except String Forecast :=
  if !t.hasDate then .error "KeyError: date"
  else if !t.hasPrice then .error "KeyError: price"
  else if !allDatesValid t then .error "sort_values on non-datetime dates"
  else if t.rows.length ≤ 7 then .error "NameError: trend is not defined"
  else
    match meanOpt (lastSevenPrices t) with
    | none => .error "int of NaN forecast"
    | some m =>
      let trend := calculateTrend (pricesByDay t)
      let f := (m + trend * 7) * seasonalFactorOf month
      .ok { nextWeek := intTrunc f
            confidence := "Medium"
            trendStr := trendLabelOf trend
            demandNextWeek := demandForecastOf month
            seasonalFactor := seasonalFactorOf month }

/-- The static dictionary of the `except` branch of `_generate_forecasts`. -/
def defaultForecast : Forecast :=
  { nextWeek := 495, confidence := "Medium", trendStr := "stable",
    demandNextWeek := "Medium", seasonalFactor := 1 }

/-- `_generate_forecasts` with its `try/except`. -/
def forecastsOf (t : Frame) (month : Int) : Forecast :=
  match forecastsCore t month with
  | .ok f => f
  | .error _ => defaultForecast

/-! ### Assembler (`MarketAnalyzer.analyze_market_trends`)

The analysis object restricted to the sub-sections some claim reads.  The
remaining sub-sections (`price_trends`, `airline_performance`,
`capacity_utilization`, `market_insights`) are further read-only aggregations
over the same cleaned frame; no claim mentions them and they are not
modelled. -/

structure AnalysisOut where
  demandPatterns : DemandPatterns
  seasonalTrends : SeasonalTrends
  popularRoutes : PopularRoutes
  statistics : Stats
  forecasting : Forecast
deriving Repr, DecidableEq

/-- The modelled sub-sections of `_get_default_analysis` (the fixed analysis
returned for an empty input table). -/
def defaultAnalysisOut (today : Int) : AnalysisOut :=
  { demandPatterns :=
      { dailyLabels := dayOrder
        dailyBookings := [650, 590, 800, 810, 1200, 1350, 1100]
        dailyAvgPrices := [420, 410, 400, 430, 480, 520, 500]
        monthlyLabels := ["Month 1", "Month 2", "Month 3"]
        monthlyBookings := [2500, 2200, 2800]
        monthlyAvgPrices := [some 450, some 420, some 470]
        weekdayBookings := some 750
        weekendBookings := some 1200
        weekdayPrice := some 430
        weekendPrice := some 480
        peakPeriods := defaultPeakInfo }
    seasonalTrends := defaultSeasonalTrends
    popularRoutes := defaultPopularRoutes
    statistics := { defaultStatsFn today with totalFlights := 450 }
    forecasting := defaultForecast }

/-- `analyze_market_trends`: an empty input short-circuits to the default
analysis; otherwise the input is cleaned and every sub-analysis reads the
cleaned frame.  `today` is `datetime.now()` as a day number. -/
def analyzeMarketTrends (today : Int) (t : Frame) : AnalysisOut :=
  if t.rows.isEmpty then defaultAnalysisOut today
  else
    let cleaned := clean t
    { demandPatterns := demandPatternsOf cleaned
      seasonalTrends := seasonalTrendsOf cleaned
      popularRoutes := popularRoutesOf cleaned
      statistics := statisticsOf cleaned today
      forecasting := forecastsOf cleaned (monthOfDay today) }

/-- The heap as seen by `analyze_market_trends`: the caller-owned frame object
and the working frame bound to the local `flight_data`/`cleaned_data` name.
`_clean_data` line 49 copies the caller frame into the working slot; every
later column assignment of the cleaning step mutates only the working slot. -/
structure Store where
  caller : Frame
  work : Frame
deriving Repr, DecidableEq

/-- The cleaning phase as a store transformer: copy, then mutate the copy
(equivalently, replace the working frame with the cleaned frame); the `except`
branch rebinds the working name to the caller value without mutating it. -/
def cleanStore (s : Store) : Store :=
  { s with work := clean s.caller }

/-- `analyze_market_trends` as a store program: the returned store shows what
each heap slot holds when the call returns. -/
def analyzeStore (today : Int) (t : Frame) : Store × AnalysisOut :=
  let s0 : Store := { caller := t, work := t }
  if t.rows.isEmpty then (s0, defaultAnalysisOut today)
  else
    let s1 := cleanStore s0
    (s1,
      { demandPatterns := demandPatternsOf s1.work
        seasonalTrends := seasonalTrendsOf s1.work
        popularRoutes := popularRoutesOf s1.work
        statistics := statisticsOf s1.work today
        forecasting := forecastsOf s1.work (monthOfDay today) })

/-! ### Insight generation (`api_integration.InsightsGenerator`) -/

/-- One generated insight. -/
structure Insight where
  title : String
  content : String
deriving Repr, DecidableEq

/-- The slice of the statistics dictionary that the insight generator reads
(each `.get` has a default applied at the use site). -/
structure StatsIn where
  avgPrice : Option ℤ
  priceChange : Option String
  demandScore : Option ℤ
  totalRoutes : Option ℤ
deriving Repr, DecidableEq

/-- The slice of the analysis dictionary that the insight generator reads:
`statistics`, `popular_routes.bookings` and `seasonal_trends.demand` (the
latter two keys are looked up directly under their sections). -/
structure AnalysisIn where
  statistics : Option StatsIn
  popularRoutesBookings : Option (List ℚ)
  seasonalDemand : Option (List ℚ)
deriving Repr, DecidableEq

/-- The argument passed to `generate_insights`, as Python sees it:
`noneInput` for None (or any falsy non-dict), `notDict` for a non-dict object,
and `dict` with an emptiness flag (an empty dict is falsy and also fails the
validation). -/
inductive AnalysisInput where
  | noneInput : AnalysisInput
  | notDict : AnalysisInput
  | dict : Bool → AnalysisIn → AnalysisInput
deriving Repr, DecidableEq

/-- Character membership in a string (Python `c in s`), over the character
list so that it evaluates inside the kernel. -/
def strContains (s : String) (c : Char) : Bool := s.data.contains c

/-- String prefix test over the character lists. -/
def strStartsWith (p s : String) : Bool := p.data.isPrefixOf s.data

/-- `_is_openai_configured`: a key is configured when present, non-empty,
not the placeholder, and longer than 20 characters. -/
def isOpenAIConfigured (key : Option String) : Bool :=
  match key with
  | none => false
  | some k => k != "" && k != "YOUR_OPENAI_API_KEY" && decide (20 < k.length)

/-- Empty-list rendering aside, Python prints the integers that appear in the
claims identically to `toString` on ℤ. -/
def zStr (z : ℤ) : String := toString z

/-- Rendering of a ℚ statistic inside an f-string; the claims only exercise
integral values, where Python and `toString` agree. -/
def qStr (q : ℚ) : String := toString q

/-- Maximum of a nonempty ℚ list (`max(...)`). -/
def maxList (x : ℚ) (xs : List ℚ) : ℚ := xs.foldl max x

/-- Minimum of a nonempty ℚ list (`min(...)`). -/
def minList (x : ℚ) (xs : List ℚ) : ℚ := xs.foldl min x

/-- The defaults of the statistics slice. -/
def emptyStatsIn : StatsIn :=
  { avgPrice := none, priceChange := none, demandScore := none, totalRoutes := none }

/-- The price-trend insight: branches on whether the price-change string
contains a plus sign.  Both source branches carry the same title, written
once here. -/
def priceInsight (a : AnalysisIn) : Insight :=
  { title := "Price Trend Analysis"
    content :=
      if strContains ((a.statistics.getD emptyStatsIn).priceChange.getD "+0%") (Char.ofNat 43) then
        "Market prices have increased by " ++
          ((a.statistics.getD emptyStatsIn).priceChange.getD "+0%") ++
          ", indicating strong demand conditions. The current average price of $" ++
          zStr ((a.statistics.getD emptyStatsIn).avgPrice.getD 400) ++
          " suggests premium market positioning opportunities. Airlines should consider dynamic pricing strategies to maximize revenue during peak demand periods."
      else
        "Market prices have decreased by " ++
          ((a.statistics.getD emptyStatsIn).priceChange.getD "+0%") ++
          ", indicating potential oversupply or competitive pressure. The current average price of $" ++
          zStr ((a.statistics.getD emptyStatsIn).avgPrice.getD 400) ++
          " suggests opportunities for market share growth through competitive pricing and value-added services." }

/-- The demand-assessment insight: 3-way branch on the demand score.  All
three source branches carry the same title, written once here. -/
def demandInsight (a : AnalysisIn) : Insight :=
  { title := "Demand Assessment"
    content :=
      if 75 < (a.statistics.getD emptyStatsIn).demandScore.getD 50 then
        "Exceptional demand score of " ++
          zStr ((a.statistics.getD emptyStatsIn).demandScore.getD 50) ++
          "% indicates a seller\x27s market with high passenger interest. This presents opportunities for capacity expansion, premium service offerings, and strategic route development. Consider increasing frequency on high-demand routes."
      else if 50 < (a.statistics.getD emptyStatsIn).demandScore.getD 50 then
        "Moderate demand score of " ++
          zStr ((a.statistics.getD emptyStatsIn).demandScore.getD 50) ++
          "% suggests balanced market conditions. Focus on operational efficiency, service quality improvements, and competitive positioning. Monitor competitor activities and adjust strategies accordingly."
      else
        "Lower demand score of " ++
          zStr ((a.statistics.getD emptyStatsIn).demandScore.getD 50) ++
          "% indicates market challenges requiring strategic intervention. Consider promotional campaigns, route optimization, partnership opportunities, or service differentiation to stimulate demand." }

/-- The route-network insight: branches on whether route-level booking data
exists. -/
def routeInsight (a : AnalysisIn) : Insight :=
  let stats := a.statistics.getD emptyStatsIn
  let totalRoutes := stats.totalRoutes.getD 20
  match a.popularRoutesBookings with
  | some (b :: bs) =>
    { title := "Route Network Optimization"
      content := "Network analysis of " ++ zStr totalRoutes ++
        " routes reveals concentrated demand patterns. Top routes generate " ++
        qStr (maxList b bs) ++
        " bookings, indicating hub-and-spoke opportunities. Consider capacity reallocation from underperforming routes to high-demand corridors for improved efficiency." }
  | _ =>
    { title := "Route Network Analysis"
      content := "Current network spans " ++ zStr totalRoutes ++
        " routes with varying performance levels. Route optimization opportunities exist through data-driven capacity allocation and strategic partnerships on secondary routes." }

/-- The seasonal/strategic insight: branches on the presence of a seasonal
demand series, computing the seasonality amplitude when the low season is
positive. -/
def seasonalInsight (a : AnalysisIn) : Insight :=
  match a.seasonalDemand with
  | some (d :: ds) =>
    let peakDemand := maxList d ds
    let lowDemand := minList d ds
    let seasonality := if 0 < lowDemand then (peakDemand - lowDemand) / lowDemand * 100 else 0
    { title := "Seasonal Strategy & Growth"
      content := "Seasonal demand variation of " ++ zStr (roundHalfEven seasonality) ++
        "% presents revenue management opportunities. Peak periods show " ++
        qStr peakDemand ++ " bookings vs " ++ qStr lowDemand ++
        " in low season. Implement dynamic pricing, advance booking incentives, and targeted marketing campaigns to optimize year-round performance." }
  | _ =>
    { title := "Strategic Growth Opportunities"
      content := "Market analysis reveals opportunities in dynamic pricing implementation, capacity optimization, and strategic route development. Focus on data-driven decision making and customer experience enhancement to drive sustainable growth." }

/-- `_generate_rule_based_insights`: always appends exactly these four
insights, in this order. -/
def ruleBasedInsights (a : AnalysisIn) : List Insight :=
  [priceInsight a, demandInsight a, routeInsight a, seasonalInsight a]

/-- The seasonal message of the fallback insights, selected by the current
calendar month bucketed into four 3-month groups. -/
def fallbackSeasonalMsg (month : Int) : String :=
  if month = 12 ∨ month = 1 ∨ month = 2 then
    "Winter travel patterns show increased demand for warm destinations and holiday travel."
  else if month = 6 ∨ month = 7 ∨ month = 8 then
    "Summer peak season presents opportunities for leisure route optimization and capacity expansion."
  else if month = 3 ∨ month = 4 ∨ month = 5 then
    "Spring travel uptick indicates recovery in business travel and leisure bookings."
  else
    "Fall shoulder season provides opportunities for competitive pricing and route testing."

/-- `_generate_fallback_insights`: four static insights, the first embedding
the month-selected seasonal message. -/
def fallbackInsights (month : Int) : List Insight :=
  [ { title := "Market Dynamics Overview"
      content := "Current airline market shows typical seasonal patterns with evolving demand structures. " ++
        fallbackSeasonalMsg month ++
        " Airlines should focus on flexible capacity management and dynamic pricing strategies to optimize revenue across different market segments." }
  , { title := "Revenue Optimization Strategy"
      content := "Implement advanced revenue management systems with dynamic pricing capabilities. Focus on demand forecasting, competitor analysis, and customer segmentation to maximize yield. Consider ancillary revenue opportunities and premium service offerings to improve unit economics." }
  , { title := "Network Planning Insights"
      content := "Route performance analysis reveals opportunities for network optimization. High-traffic corridors between major cities show consistent demand, while secondary routes may benefit from strategic partnerships, frequency adjustments, or seasonal scheduling modifications." }
  , { title := "Digital Transformation Opportunities"
      content := "Modern travelers expect seamless digital experiences and personalized services. Invest in mobile-first booking platforms, AI-powered customer service, and data analytics capabilities to enhance customer satisfaction and operational efficiency while reducing distribution costs." } ]

/-- `generate_insights`.  `remote` is the environment: the value
`_generate_ai_insights` would return (`none` models every remote failure:
exhausted retries, a non-200 status, or an empty parse; `some []` models a
parse that yielded nothing, which is falsy and also falls through).  Invalid
input — None, a non-dict, or an empty dict — goes straight to the fallback
insights, whatever the configuration. -/
def generateInsights (key : Option String) (remote : Option (List Insight))
    (month : Int) (input : AnalysisInput) : List Insight :=
  match input with
  | .noneInput => fallbackInsights month
  | .notDict => fallbackInsights month
  | .dict true _ => fallbackInsights month
  | .dict false a =>
    if isOpenAIConfigured key then
      match remote with
      | some ins => if ins.isEmpty then ruleBasedInsights a else ins
      | none => ruleBasedInsights a
    else ruleBasedInsights a

/-! ### Sentiment (`InsightsGenerator.get_market_sentiment`) -/

/-- The sign of the price-change string: a plus sign anywhere wins, then a
minus sign, else stable. -/
def priceTrendOf (pc : String) : String :=
  if strContains pc (Char.ofNat 43) then "positive"
  else if strContains pc (Char.ofNat 45) then "negative"
  else "stable"

/-- `get_market_sentiment`: ordered threshold checks on the demand score and
the sign of the price change, on the two statistics fields the function reads
(their `.get` defaults applied by the caller). -/
def getMarketSentiment (demandScore : ℤ) (priceChange : String) : String :=
  if 70 < demandScore ∧ priceTrendOf priceChange = "positive" then
    "Bullish - Strong demand with rising prices"
  else if 60 < demandScore ∧ priceTrendOf priceChange = "stable" then
    "Optimistic - Stable demand with controlled pricing"
  else if demandScore < 40 ∧ priceTrendOf priceChange = "negative" then
    "Bearish - Weak demand with falling prices"
  else if demandScore < 50 then "Cautious - Below-average demand conditions"
  else "Neutral - Balanced market conditions"

/-- The coarse label of a sentiment string: the part before the first blank
(each sentiment string is the label followed by a dash and a gloss). -/
def sentimentLabel (demandScore : ℤ) (priceChange : String) : String :=
  String.mk ((getMarketSentiment demandScore priceChange).data.takeWhile
    (fun c => c != Char.ofNat 32))

/-! ### Concrete tables and inputs used by witnesses and counterexamples -/

/-- A raw row with every numeric cell present. -/
def exRow (d : Int) (p b c : ℚ) (o dst : String) : Row :=
  mkRaw (.valid d) (some p) (some b) (some c) o dst

/-- A frame whose date column is missing: cleaning fails immediately. -/
def noDateFrame : Frame :=
  { hasDate := false, hasPrice := true, hasBookings := false, hasCapacity := false,
    hasLoadFactor := false, hasDerived := false,
    rows := [mkRaw .missing (some 100) none none "SYD" "MEL"] }

/-- A one-row table (1970-01-01, a Thursday in month 1) with full columns. -/
def singleMonthTable : Frame :=
  { hasDate := true, hasPrice := true, hasBookings := true, hasCapacity := true,
    hasLoadFactor := false, hasDerived := false,
    rows := [exRow 0 100 50 100 "SYD" "MEL"] }

/-- Two records one day apart with prices 400 and 460. -/
def twoRecordTable : Frame :=
  { hasDate := true, hasPrice := true, hasBookings := false, hasCapacity := false,
    hasLoadFactor := false, hasDerived := false,
    rows := [mkRaw (.valid 0) (some 400) none none "SYD" "MEL",
             mkRaw (.valid 1) (some 460) none none "SYD" "MEL"] }

/-- A nonempty table whose only record has price 30: the IQR band clamped
below at 50 drops the record, so the cleaned table is empty. -/
def priceThirtyTable : Frame :=
  { hasDate := true, hasPrice := true, hasBookings := false, hasCapacity := false,
    hasLoadFactor := false, hasDerived := false,
    rows := [mkRaw (.valid 0) (some 30) none none "SYD" "MEL"] }

/-- Seven distinct routes with one booking each: every market share is
100/7 ≈ 14.2857, which rounds to 14.3. -/
def sevenRouteTable : Frame :=
  { hasDate := true, hasPrice := true, hasBookings := true, hasCapacity := true,
    hasLoadFactor := false, hasDerived := false,
    rows := [exRow 0 100 1 2 "A" "B", exRow 0 100 1 2 "B" "C", exRow 0 100 1 2 "C" "D",
             exRow 0 100 1 2 "D" "E", exRow 0 100 1 2 "E" "F", exRow 0 100 1 2 "F" "G",
             exRow 0 100 1 2 "G" "H"] }

/-- A one-record table: the forecasting body hits its unbound `trend`
reference. -/
def oneRecordTable : Frame :=
  { hasDate := true, hasPrice := true, hasBookings := false, hasCapacity := false,
    hasLoadFactor := false, hasDerived := false,
    rows := [mkRaw (.valid 0) (some 100) none none "SYD" "MEL"] }

/-- Eight records at price 100 on consecutive days. -/
def eightRecordTable : Frame :=
  { hasDate := true, hasPrice := true, hasBookings := false, hasCapacity := false,
    hasLoadFactor := false, hasDerived := false,
    rows := (List.range 8).map (fun i => mkRaw (.valid (i : Int)) (some 100) none none "SYD" "MEL") }

/-- An analysis input with price change "+8.0%" and demand score 80. -/
def exampleAnalysisIn : AnalysisIn :=
  { statistics := some { avgPrice := none, priceChange := some "+8.0%",
                         demandScore := some 80, totalRoutes := none },
    popularRoutesBookings := none, seasonalDemand := none }

/-! ### The forecasting claim, stated from the specification wording -/

/-- Daily mean prices in chronological order (the daily groupby the
specification refers to). -/
def dailyMeanPrices (t : Frame) : List (Option ℚ) :=
  (sortedKeys (fun a b => decide (a < b)) (t.rows.map (fun r => r.date.day))).map
    (fun d => meanOpt ((t.rows.filter (fun r => r.date.day == d)).map (fun r => r.price)))

/-- Modelled from the claim wording, for comparison with the code: the price
forecast equals the mean of the last 7 daily prices, adjusted by the trend
slope times 7 when more than 7 records exist, times the month-indexed
seasonal factor; confidence always "Medium"; demand "High" exactly for months
12, 1, 6 and 7. -/
def forecastClaim (t : Frame) (month : Int) : Prop :=
  let out := forecastsOf t month
  let daily := dailyMeanPrices t
  let base := (meanOpt (daily.drop (daily.length - 7))).getD 0
  let adjusted := if 7 < t.rows.length then base + calculateTrend (pricesByDay t) * 7 else base
  out.nextWeek = intTrunc (adjusted * seasonalFactorOf month) ∧
  out.confidence = "Medium" ∧
  out.demandNextWeek =
    (if month = 12 ∨ month = 1 ∨ month = 6 ∨ month = 7 then "High" else "Medium")

/-! ## Helper lemmas -/

theorem insertLt_perm (lt : α → α → Bool) (x : α) (l : List α) :
    List.Perm (insertLt lt x l) (x :: l) := by
  induction l with
  | nil => simp [insertLt]
  | cons y ys ih =>
    simp only [insertLt]
    split
    · exact List.Perm.refl _
    · exact (List.Perm.cons y ih).trans (List.Perm.swap x y ys)

theorem insertionSortBy_perm (lt : α → α → Bool) (l : List α) :
    List.Perm (insertionSortBy lt l) l := by
  induction l with
  | nil => simp [insertionSortBy]
  | cons x xs ih =>
    exact (insertLt_perm lt x (insertionSortBy lt xs)).trans (List.Perm.cons x ih)

theorem mem_sortedKeys [DecidableEq α] (lt : α → α → Bool) (l : List α) (x : α) :
    x ∈ sortedKeys lt l ↔ x ∈ l := by
  unfold sortedKeys
  rw [(insertionSortBy_perm lt l.dedup).mem_iff]
  exact List.mem_dedup

theorem addDerived_loadFactor (r : Row) : (addDerived r).loadFactor = r.loadFactor := by
  unfold addDerived
  cases r.date <;> rfl

theorem loadFactorOf_bounds (b c : Option ℚ) (v : ℚ) (h : loadFactorOf b c = some v) :
    0 ≤ v ∧ v ≤ 1 := by
  cases b with
  | none => simp [loadFactorOf] at h
  | some b =>
    cases c with
    | none => simp [loadFactorOf] at h
    | some c =>
      simp only [loadFactorOf] at h
      by_cases hc : c = 0
      · rw [if_pos hc] at h
        by_cases hb : b = 0
        · rw [if_pos hb] at h; exact absurd h (by simp)
        · rw [if_neg hb] at h
          by_cases hbp : 0 < b
          · rw [if_pos hbp] at h
            cases h; exact ⟨zero_le_one, le_refl 1⟩
          · rw [if_neg hbp] at h
            cases h; exact ⟨le_refl 0, zero_le_one⟩
      · rw [if_neg hc] at h
        cases h
        constructor
        · exact le_max_left 0 _
        · exact max_le zero_le_one (min_le_left 1 _)

theorem meanOpt_ne_nil {l : List (Option ℚ)} {q : ℚ} (h : meanOpt l = some q) :
    l ≠ [] := by
  intro hl
  rw [hl] at h
  simp [meanOpt] at h

/-! ## Claim C1 -/

/-- C1: the record-cleaning operation never raises (it is a total function by
construction of the embedding), and whenever its body fails it returns the
original input table unmodified, never a partially cleaned one: the only
outcomes of `clean` are the fully cleaned table or the untouched input. -/
theorem clean_soft_failure :
    (∀ t e, cleanCore t = Except.error e → clean t = t) ∧
    (∀ t, cleanCore t = Except.ok (clean t) ∨ clean t = t) := by
  constructor
  · intro t e h
    unfold clean
    rw [h]
  · intro t
    unfold clean
    cases h : cleanCore t with
    | ok c => left; rfl
    | error e => right; rfl

/-- Witness: cleaning a frame with no date column fails and hands back the
input frame itself. -/
theorem clean_soft_failure_witness : clean noDateFrame = noDateFrame :=
  clean_soft_failure.1 noDateFrame "KeyError: date" rfl

/-! ## Claim C3 -/

/-- C3: when cleaning succeeds on a table that has both a bookings and a
capacity column, every present `load_factor` value of the cleaned table lies
in the interval [0, 1]. -/
theorem load_factor_unit_interval :
    ∀ (t c : Frame), t.hasBookings = true → t.hasCapacity = true →
      cleanCore t = Except.ok c →
      ∀ r ∈ c.rows, ∀ v : ℚ, r.loadFactor = some v → 0 ≤ v ∧ v ≤ 1 := by
  intro t c hb hc hok r hr v hv
  unfold cleanCore at hok
  split_ifs at hok
  injection hok with hok
  subst hok
  unfold cleanBuild at hr
  simp only [hb, hc, Bool.and_self, if_true, List.mem_map] at hr
  obtain ⟨r0, hr0, rfl⟩ := hr
  rw [addDerived_loadFactor] at hv
  obtain ⟨r1, _, rfl⟩ := hr0
  exact loadFactorOf_bounds r1.bookings r1.capacity v hv

/-- Witness: the single cleaned row of the one-row table has load
factor 1/2, which the theorem places in [0, 1]. -/
theorem load_factor_unit_interval_witness : 0 ≤ (1/2 : ℚ) ∧ (1/2 : ℚ) ≤ 1 :=
  load_factor_unit_interval singleMonthTable (clean singleMonthTable) rfl rfl rfl
    ((clean singleMonthTable).rows.getD 0 (mkRaw .missing none none none "" ""))
    (by decide) (1/2) (by decide)

/-! ## Claim C2 -/

/-- C2 counterexample: for the nonempty single-month input table, the
produced analysis has a demand-patterns monthly series with exactly one
entry — the monthly demand series is not reindexed onto the 12 calendar
months. -/
theorem monthly_patterns_single_entry :
    ((analyzeMarketTrends 0 singleMonthTable).demandPatterns.monthlyLabels).length = 1 ∧
    ((analyzeMarketTrends 0 singleMonthTable).demandPatterns.monthlyBookings).length = 1 ∧
    (1 : ℕ) ≠ 12 :=
  ⟨by decide, by decide, by decide⟩

/-- C2 amended: the demand-patterns monthly series has one entry per month
actually present in the data (equal-length labels and values), while the
seasonal-trends monthly series is reindexed onto all 12 calendar months with
the bookings of absent months zero-filled. -/
theorem monthly_series_entry_counts :
    (∀ (t : Frame) (d : DemandPatterns), demandPatternsCore t = Except.ok d →
        d.monthlyLabels.length = (distinctMonths t).length ∧
        d.monthlyBookings.length = (distinctMonths t).length ∧
        d.monthlyAvgPrices.length = (distinctMonths t).length) ∧
    (∀ (t : Frame) (s : SeasonalTrends), seasonalTrendsCore t = Except.ok s →
        s.monthlyLabels.length = 12 ∧ s.monthlyBookings.length = 12 ∧
        s.monthlyPrices.length = 12 ∧
        (∀ i : ℕ, i < 12 → (∀ r ∈ t.rows, r.month ≠ (i : Int) + 1) →
          s.monthlyBookings.getD i 1 = 0)) := by
  constructor
  · intro t d h
    unfold demandPatternsCore at h
    split_ifs at h
    injection h with h
    subst h
    refine ⟨?_, ?_, ?_⟩ <;> simp [demandPatternsBuild]
  · intro t s h
    unfold seasonalTrendsCore at h
    split_ifs at h
    injection h with h
    subst h
    refine ⟨rfl, rfl, rfl, ?_⟩
    intro i hi habs
    show (monthRange.map (fun m => sumOpt
        ((t.rows.filter (fun r => r.month == m)).map (fun r => r.bookings)))).getD i 1 = 0
    rw [List.getD_eq_getElem?_getD, List.getElem?_map]
    have hidx : monthRange[i]? = some ((i : Int) + 1) := by
      interval_cases i <;> rfl
    rw [hidx]
    have hfil : t.rows.filter (fun r => r.month == (i : Int) + 1) = [] := by
      rw [List.filter_eq_nil_iff]
      intro r hr
      simpa using habs r hr
    simp [hfil, sumOpt]

/-- Witness: on the cleaned single-month table the demand monthly series has
as many entries as there are distinct months, and the seasonal monthly series
has 12 entries. -/
theorem monthly_series_entry_counts_witness :
    (demandPatternsOf (clean singleMonthTable)).monthlyLabels.length =
      (distinctMonths (clean singleMonthTable)).length ∧
    (seasonalTrendsOf (clean singleMonthTable)).monthlyLabels.length = 12 :=
  ⟨(monthly_series_entry_counts.1 (clean singleMonthTable) _ rfl).1,
   (monthly_series_entry_counts.2 (clean singleMonthTable) _ rfl).1⟩

/-! ## Claim C4 -/

/-- C4 counterexample: the nonempty price-30 table cleans to an empty table,
on which the statistics body fails before reaching the price-change code
(`int` of a NaN mean), so the produced price change is the fallback value
"+12.3%", not "0.0%", although the cleaned table has fewer than 2 records. -/
theorem price_change_default_on_dropped_table :
    (clean priceThirtyTable).rows.length = 0 ∧
    (analyzeMarketTrends 0 priceThirtyTable).statistics.priceChange = "+12.3%" ∧
    ("+12.3%" : String) ≠ "0.0%" :=
  ⟨by decide, by decide, by decide⟩

theorem statsCore_priceChange (t : Frame) (s : Stats) (h : statsCore t = Except.ok s) :
    s.priceChange = priceChangeOf t.rows := by
  unfold statsCore at h
  split_ifs at h
  injection h with h
  subst h
  rfl

/-- C4 amended: whenever the statistics computation succeeds, a table with
fewer than 2 records yields price change "0.0%", and first/second-half mean
prices of 400 and 460 yield exactly "+15.0%"; a table whose cleaning leaves 0
records makes the statistics computation itself fail and yields the fallback
"+12.3%" instead. -/
theorem price_change_halves :
    (∀ t : Frame, (statsCore t).isOk = true → t.rows.length < 2 →
        (statsCore t).map Stats.priceChange = Except.ok "0.0%") ∧
    (∀ t : Frame, (statsCore t).isOk = true →
        meanOpt (firstHalfPrices t.rows) = some 400 →
        meanOpt (secondHalfPrices t.rows) = some 460 →
        (statsCore t).map Stats.priceChange = Except.ok "+15.0%") := by
  constructor
  · intro t hok hlen
    cases h : statsCore t with
    | error e => rw [h] at hok; simp [Except.isOk, Except.toBool] at hok
    | ok s =>
      have hs : s.priceChange = "0.0%" := by
        rw [statsCore_priceChange t s h]
        unfold priceChangeOf
        rw [if_pos (by omega)]
      simp [Except.map, hs]
  · intro t hok h4 h6
    cases h : statsCore t with
    | error e => rw [h] at hok; simp [Except.isOk, Except.toBool] at hok
    | ok s =>
      have hs : s.priceChange = "+15.0%" := by
        rw [statsCore_priceChange t s h]
        unfold priceChangeOf
        have hne1 : ¬ (t.rows.length ≤ 1) := by
          intro hle
          have hz : t.rows.length / 2 = 0 := by omega
          have : firstHalfPrices t.rows = [] := by
            unfold firstHalfPrices
            rw [hz, List.take_zero, List.map_nil]
          exact meanOpt_ne_nil h4 this
        rw [if_neg hne1]
        have hf : (firstHalfPrices t.rows).isEmpty = false := by
          cases hfp : firstHalfPrices t.rows with
          | nil => exact absurd hfp (meanOpt_ne_nil h4)
          | cons a l => rfl
        have hg : (secondHalfPrices t.rows).isEmpty = false := by
          cases hfp : secondHalfPrices t.rows with
          | nil => exact absurd hfp (meanOpt_ne_nil h6)
          | cons a l => rfl
        rw [if_neg (by simp [hf, hg])]
        rw [h4, h6]
        show (if (400 : ℚ) = 0 then _ else fmtSigned1 ((460 - 400) / 400 * 100) ++ "%") = _
        rw [if_neg (by norm_num)]
        rw [show ((460 : ℚ) - 400) / 400 * 100 = 15 by norm_num]
        decide
      simp [Except.map, hs]

/-- Witness: the cleaned two-record table (prices 400 then 460) has half
means 400 and 460 and price change "+15.0%". -/
theorem price_change_halves_witness :
    (statsCore (clean twoRecordTable)).map Stats.priceChange = Except.ok "+15.0%" :=
  price_change_halves.2 (clean twoRecordTable) (by decide) (by decide) (by decide)

/-! ## Claim C5 -/

theorem roundHalfEven_le (q : ℚ) : (roundHalfEven q : ℚ) ≤ q + 1/2 := by
  unfold roundHalfEven
  have h1 := Int.floor_le q
  have h2 := Int.lt_floor_add_one q
  split_ifs with ha hb hc <;> push_cast <;> linarith

theorem round1_le (q : ℚ) : round1 q ≤ q + 1/20 := by
  unfold round1
  have h := roundHalfEven_le (q * 10)
  linarith

theorem sum_map_round1_le (l : List ℚ) :
    (l.map round1).sum ≤ l.sum + (l.length : ℚ) * (1/20) := by
  induction l with
  | nil => simp
  | cons x xs ih =>
    simp only [List.map_cons, List.sum_cons, List.length_cons]
    have h := round1_le x
    push_cast
    linarith

theorem sum_take_le (l : List ℚ) (n : ℕ) (h : ∀ x ∈ l, 0 ≤ x) :
    (l.take n).sum ≤ l.sum := by
  conv_rhs => rw [← List.take_append_drop n l]
  rw [List.sum_append]
  have hd : 0 ≤ (l.drop n).sum :=
    List.sum_nonneg (fun x hx => h x (List.drop_subset _ _ hx))
  linarith

theorem sum_map_div_mul (l : List ℚ) (T : ℚ) :
    (l.map (fun b => b / T * 100)).sum = l.sum / T * 100 := by
  induction l with
  | nil => simp
  | cons x xs ih =>
    simp only [List.map_cons, List.sum_cons, ih]
    ring

theorem sumOpt_nonneg (l : List (Option ℚ)) (h : ∀ q : ℚ, some q ∈ l → 0 ≤ q) :
    0 ≤ sumOpt l := by
  unfold sumOpt
  apply List.sum_nonneg
  intro x hx
  obtain ⟨o, ho, hoe⟩ := List.mem_filterMap.1 hx
  cases o with
  | none => exact absurd hoe (by simp)
  | some v =>
    cases hoe
    exact h x ho

theorem routeGroups_bookings_nonneg (t : Frame)
    (h : ∀ r ∈ t.rows, 0 ≤ r.bookings.getD 0) :
    ∀ g ∈ routeGroups t, 0 ≤ g.bookings := by
  intro g hg
  unfold routeGroups at hg
  obtain ⟨k, hk, rfl⟩ := List.mem_map.1 hg
  apply sumOpt_nonneg
  intro q hq
  obtain ⟨r, hr, hrb⟩ := List.mem_map.1 hq
  have hr2 : r ∈ t.rows := (List.mem_filter.1 hr).1
  have hnn := h r hr2
  rw [hrb] at hnn
  exact hnn

/-- C5 counterexample: the cleaned seven-route table has positive total
bookings (7), yet its top-routes market shares sum to 100.1 > 100 — each of
the 7 equal shares 100/7 rounds up to 14.3. -/
theorem market_share_sum_exceeds_100 :
    routesTotalBookings (clean sevenRouteTable) = 7 ∧
    ((popularRoutesOf (clean sevenRouteTable)).marketShare).sum = 1001/10 ∧
    ¬ (((1001 : ℚ)/10) ≤ 100) :=
  ⟨by decide, by decide, by decide⟩

/-- C5 amended: with nonnegative bookings and positive total bookings, the
market shares of the top routes (at most 10 of them) sum to at most
100 + 0.05 per listed route (hence at most 100.5); rounding each share to one
decimal can push the sum above the claimed bound of 100. -/
theorem market_share_sum_bound :
    ∀ (t : Frame) (p : PopularRoutes),
      (∀ r ∈ t.rows, 0 ≤ r.bookings.getD 0) →
      0 < routesTotalBookings t →
      popularRoutesCore t = Except.ok p →
      p.marketShare.sum ≤ 100 + (p.marketShare.length : ℚ) * (1/20) ∧
      p.marketShare.length ≤ 10 := by
  intro t p hb hT hok
  unfold popularRoutesCore at hok
  split_ifs at hok
  injection hok with hok
  subst hok
  have hms : (popularRoutesBuild t).marketShare =
      ((insertionSortBy (fun a b => decide (b.bookings < a.bookings)) (routeGroups t)).take 10).map
        (fun g => round1 (g.bookings / routesTotalBookings t * 100)) := rfl
  have hperm := insertionSortBy_perm
    (fun a b => decide (b.bookings < a.bookings)) (routeGroups t)
  have hnn : ∀ g ∈ insertionSortBy (fun a b => decide (b.bookings < a.bookings)) (routeGroups t),
      0 ≤ g.bookings :=
    fun g hg => routeGroups_bookings_nonneg t hb g (hperm.mem_iff.1 hg)
  rw [hms]
  constructor
  · have hcomp :
        ((insertionSortBy (fun a b => decide (b.bookings < a.bookings)) (routeGroups t)).take
            10).map (fun g => round1 (g.bookings / routesTotalBookings t * 100)) =
        (((insertionSortBy (fun a b => decide (b.bookings < a.bookings)) (routeGroups t)).take
            10).map (fun g => g.bookings / routesTotalBookings t * 100)).map round1 := by
      rw [List.map_map]
      rfl
    rw [hcomp]
    have step1 := sum_map_round1_le
      (((insertionSortBy (fun a b => decide (b.bookings < a.bookings)) (routeGroups t)).take
          10).map (fun g => g.bookings / routesTotalBookings t * 100))
    have hlen :
        ((((insertionSortBy (fun a b => decide (b.bookings < a.bookings)) (routeGroups t)).take
            10).map (fun g => g.bookings / routesTotalBookings t * 100)).map round1).length =
        (((insertionSortBy (fun a b => decide (b.bookings < a.bookings)) (routeGroups t)).take
            10).map (fun g => g.bookings / routesTotalBookings t * 100)).length := by
      rw [List.length_map]
    rw [hlen]
    have step2 :
        (((insertionSortBy (fun a b => decide (b.bookings < a.bookings)) (routeGroups t)).take
            10).map (fun g => g.bookings / routesTotalBookings t * 100)).sum ≤
        ((insertionSortBy (fun a b => decide (b.bookings < a.bookings)) (routeGroups t)).map
            (fun g => g.bookings / routesTotalBookings t * 100)).sum := by
      rw [List.map_take]
      apply sum_take_le
      intro x hx
      obtain ⟨g, hg, rfl⟩ := List.mem_map.1 hx
      have hg2 := hnn g hg
      have hT0 : (0:ℚ) ≤ routesTotalBookings t := le_of_lt hT
      positivity
    have step3 :
        ((insertionSortBy (fun a b => decide (b.bookings < a.bookings)) (routeGroups t)).map
            (fun g => g.bookings / routesTotalBookings t * 100)).sum =
        ((routeGroups t).map (fun g => g.bookings / routesTotalBookings t * 100)).sum :=
      (hperm.map (fun g => g.bookings / routesTotalBookings t * 100)).sum_eq
    have step4 :
        ((routeGroups t).map (fun g => g.bookings / routesTotalBookings t * 100)).sum = 100 := by
      have hcomp2 : (routeGroups t).map (fun g => g.bookings / routesTotalBookings t * 100) =
          ((routeGroups t).map (fun g => g.bookings)).map
            (fun b => b / routesTotalBookings t * 100) := by
        rw [List.map_map]
        rfl
      rw [hcomp2, sum_map_div_mul]
      show routesTotalBookings t / routesTotalBookings t * 100 = 100
      rw [div_self (ne_of_gt hT)]
      norm_num
    linarith
  · rw [List.length_map, List.length_take]
    exact min_le_left 10 _

/-- Witness: on the cleaned seven-route table the bound of the amended claim
holds (100.1 versus the bound 100.35). -/
theorem market_share_sum_bound_witness :
    ((popularRoutesOf (clean sevenRouteTable)).marketShare).sum ≤
      100 + (((popularRoutesOf (clean sevenRouteTable)).marketShare).length : ℚ) * (1/20) ∧
    ((popularRoutesOf (clean sevenRouteTable)).marketShare).length ≤ 10 :=
  market_share_sum_bound (clean sevenRouteTable) _ (by decide) (by decide) rfl

/-! ## Claim C9 -/

/-- C9 counterexample: on the one-record table in December the claimed
forecast contract fails — the forecasting body raises (its `trend` variable
is referenced without having been assigned for tables of at most 7 records),
so the static default is returned and the demand forecast reads "Medium"
where the claim requires "High". -/
theorem forecast_claim_fails_on_small_table : ¬ forecastClaim (clean oneRecordTable) 12 := by
  intro h
  simp only [forecastClaim] at h
  have h3 := h.2.2
  rw [show (forecastsOf (clean oneRecordTable) 12).demandNextWeek = "Medium" by decide] at h3
  rw [if_pos (by norm_num)] at h3
  exact absurd h3 (by decide)

/-- C9 amended: any table of at most 7 records makes the forecasting body
fail (unbound `trend`), yielding the static default forecast; when the body
succeeds (more than 7 records, datetime dates, no NaN in the trailing
prices), the forecast equals the mean of the last 7 record prices (not daily
aggregates) plus slope times 7, times the seasonal factor of the current
month, with confidence "Medium" and demand "High" exactly for months
12, 1, 6, 7. -/
theorem forecast_formula :
    (∀ (t : Frame) (month : Int), t.rows.length ≤ 7 → forecastsOf t month = defaultForecast) ∧
    (∀ (t : Frame) (month : Int) (f : Forecast), forecastsCore t month = Except.ok f →
        f.confidence = "Medium" ∧
        f.demandNextWeek =
          (if month = 12 ∨ month = 1 ∨ month = 6 ∨ month = 7 then "High" else "Medium") ∧
        f.seasonalFactor = seasonalFactorOf month ∧
        f.nextWeek = intTrunc
          (((meanOpt (lastSevenPrices t)).getD 0 + calculateTrend (pricesByDay t) * 7) *
            seasonalFactorOf month)) := by
  constructor
  · intro t month hlen
    unfold forecastsOf forecastsCore
    split_ifs <;> rfl
  · intro t month f hok
    unfold forecastsCore at hok
    split_ifs at hok
    cases hmean : meanOpt (lastSevenPrices t) with
    | none => rw [hmean] at hok; exact absurd hok (by simp)
    | some m =>
      rw [hmean] at hok
      injection hok with hok
      subst hok
      exact ⟨rfl, rfl, rfl, rfl⟩

/-- Witness: a small cleaned table falls back to the default forecast, and
the cleaned eight-record table in December gets demand forecast "High". -/
theorem forecast_formula_witness :
    forecastsOf (clean oneRecordTable) 5 = defaultForecast ∧
    (forecastsOf (clean eightRecordTable) 12).demandNextWeek = "High" := by
  constructor
  · exact forecast_formula.1 (clean oneRecordTable) 5 (by decide)
  · have h := (forecast_formula.2 (clean eightRecordTable) 12
      (forecastsOf (clean eightRecordTable) 12) rfl).2.1
    rw [if_pos (by norm_num)] at h
    exact h

/-! ## Claim C7 -/

/-- C7: a missing or malformed analysis input (None or a non-dict) yields
exactly the 4 static fallback insights, independently of the remote
credential and of whatever the remote tier would have returned: neither the
remote nor the rule-based tier is consulted. -/
theorem fallback_on_invalid_input :
    ∀ (key key2 : Option String) (remote remote2 : Option (List Insight)) (month : Int),
      generateInsights key remote month AnalysisInput.noneInput = fallbackInsights month ∧
      generateInsights key remote month AnalysisInput.notDict = fallbackInsights month ∧
      generateInsights key remote month AnalysisInput.noneInput =
        generateInsights key2 remote2 month AnalysisInput.noneInput ∧
      generateInsights key remote month AnalysisInput.notDict =
        generateInsights key2 remote2 month AnalysisInput.notDict ∧
      (fallbackInsights month).length = 4 := by
  intro key key2 remote remote2 month
  exact ⟨rfl, rfl, rfl, rfl, rfl⟩

/-! ## Claim C8 -/

/-- C8: the sentiment classifier depends only on the demand score and the
sign of the price-change string, its label is always one of the five fixed
labels, the checks fire in the documented order (demand above 70 with a
rising price always classifies as Bullish), and in particular demand 75 with
"+5%" gives Bullish while demand 45 with "+2%" gives Cautious. -/
theorem sentiment_classification :
    (∀ (d : ℤ) (pc pc2 : String), priceTrendOf pc = priceTrendOf pc2 →
        getMarketSentiment d pc = getMarketSentiment d pc2) ∧
    sentimentLabel 75 "+5%" = "Bullish" ∧
    sentimentLabel 45 "+2%" = "Cautious" ∧
    (∀ (d : ℤ) (pc : String),
        sentimentLabel d pc ∈ ["Bullish", "Optimistic", "Bearish", "Cautious", "Neutral"]) ∧
    (∀ (d : ℤ) (pc : String), 70 < d → priceTrendOf pc = "positive" →
        sentimentLabel d pc = "Bullish") := by
  refine ⟨?_, by decide, by decide, ?_, ?_⟩
  · intro d pc pc2 h
    unfold getMarketSentiment
    rw [h]
  · intro d pc
    unfold sentimentLabel getMarketSentiment
    split_ifs <;> decide
  · intro d pc hd hpos
    unfold sentimentLabel getMarketSentiment
    rw [hpos, if_pos ⟨hd, rfl⟩]
    decide

/-- Witness: the classifier gives the same result on two different strings
with the same (positive) sign, and the ordered Bullish check fires at a
concrete high-demand rising-price input. -/
theorem sentiment_classification_witness :
    getMarketSentiment 80 "+1%" = getMarketSentiment 80 "+2.0%" ∧
    sentimentLabel 71 "+0.1%" = "Bullish" :=
  ⟨sentiment_classification.1 80 "+1%" "+2.0%" rfl,
   sentiment_classification.2.2.2.2 71 "+0.1%" (by decide) rfl⟩

/-! ## Claim C10 -/

/-- C10: `analyze_market_trends` never mutates the caller-owned frame:
cleaning copies the input and mutates only the copy, every aggregation reads
the copy, and the store program returns with the caller slot still holding
the original table while producing the same analysis as the plain function. -/
theorem analyze_preserves_caller_frame :
    ∀ (today : Int) (t : Frame),
      (analyzeStore today t).1.caller = t ∧
      (analyzeStore today t).2 = analyzeMarketTrends today t := by
  intro today t
  unfold analyzeStore analyzeMarketTrends cleanStore
  split <;> exact ⟨rfl, rfl⟩

/-! ## Claim C6 -/

/-- C6: with no remote credential configured, a well-formed analysis input is
answered by exactly the 4 rule-based insights in their fixed generation order
(price, demand, route, seasonal), whatever the remote environment would have
produced; in particular, for statistics with price change "+8.0%" and demand
score 80 the first insight is titled "Price Trend Analysis" and its content
reports the price increase. -/
theorem rule_based_insights_when_unconfigured :
    ∀ (key : Option String) (remote : Option (List Insight)) (month : Int) (a : AnalysisIn),
      isOpenAIConfigured key = false →
      generateInsights key remote month (AnalysisInput.dict false a) = ruleBasedInsights a ∧
      (ruleBasedInsights a).length = 4 ∧
      (ruleBasedInsights a).map Insight.title =
        ["Price Trend Analysis", "Demand Assessment",
         (routeInsight a).title, (seasonalInsight a).title] ∧
      (ruleBasedInsights exampleAnalysisIn).headD { title := "", content := "" } =
        priceInsight exampleAnalysisIn ∧
      (priceInsight exampleAnalysisIn).title = "Price Trend Analysis" ∧
      strStartsWith "Market prices have increased by +8.0%"
        (priceInsight exampleAnalysisIn).content = true := by
  intro key remote month a hkey
  refine ⟨?_, rfl, rfl, rfl, rfl, by decide⟩
  simp [generateInsights, hkey]

/-- Witness: an unconfigured key (None) routes a well-formed input to the
rule-based tier. -/
theorem rule_based_insights_witness :
    generateInsights none none 1 (AnalysisInput.dict false exampleAnalysisIn) =
      ruleBasedInsights exampleAnalysisIn :=
  (rule_based_insights_when_unconfigured none none 1 exampleAnalysisIn rfl).1

end SkyInsight
